import Mathlib

/-!
# Verification of the progression / reward engine

Shallow embedding of the gamification core of a FastAPI backend:

* `app/core/progression.py` — XP / level curve (`calculate_e_for_level`,
  `calculate_total_xp_for_level`, `calculate_level_from_xp`,
  `get_progression_info`, `award_xp`);
* `app/core/currency.py` — balance credit / debit (`add_currency`,
  `deduct_currency`);
* `app/services/badge_progress.py` — badge progress, grant and extension
  (`update_progress`, `award_badge`, `extend_or_award_badge`);
* `app/services/quest_progress.py` — quest progress (`update_progress`).

Python `int` is modelled as `Int`; database rows become fields of explicit
state records; `datetime` values become `Int` timestamps (seconds), so
`timedelta(hours=1)` is `3600`; fallible code returns `Except`.
-/

namespace Progression

/-- Mirrors `calculate_e_for_level` (progression.py:16-30):
`if level < 1: return 0; return math.ceil(level / 10) * 100`.
`math.ceil(level / 10)` is modelled as the exact integer ceiling
`⌈level/10⌉ = (level + 9) / 10` (Euclidean division by the positive
constant 10); in the source the float division is exact on the whole
range the program ever passes (levels up to 1001). -/
def calculate_e_for_level (level : Int) : Int :=
  if level < 1 then 0 else ((level + 9) / 10) * 100

/-- The `for i in range(1, level + 1): total_xp += calculate_e_for_level(i)`
loop of `calculate_total_xp_for_level`, as a recursion on the number of
iterations: `total_xp_aux n = Σ_{i=1..n} E(i)`. -/
def total_xp_aux : Nat → Int
  | 0 => 0
  | n + 1 => total_xp_aux n + calculate_e_for_level ((n : Int) + 1)

/-- Mirrors `calculate_total_xp_for_level` (progression.py:33-51):
`if level < 1: return 0`, else the summation loop above. -/
def calculate_total_xp_for_level (level : Int) : Int :=
  if level < 1 then 0 else total_xp_aux level.toNat

/-- The `while True` loop of `calculate_level_from_xp` (progression.py:67-75).
Loop body: fetch `T(level+1)`; if `total_xp < T(level+1)` return `level`;
otherwise increment `level` and, if the new level exceeds 1000, return the
cap 1000; else loop again.  The loop counter is a `Nat` (it starts at 1 and
only increments); termination is by the cap. -/
def levelLoop (total_xp : Int) (level : Nat) : Int :=
  if total_xp < calculate_total_xp_for_level ((level : Int) + 1) then (level : Int)
  else if h : level + 1 > 1000 then 1000
  else levelLoop total_xp (level + 1)
termination_by 1001 - level
decreasing_by omega

/-- Mirrors `calculate_level_from_xp` (progression.py:54-75):
`if total_xp < 0: return 1`, then the search loop starting at level 1. -/
def calculate_level_from_xp (total_xp : Int) : Int :=
  if total_xp < 0 then 1 else levelLoop total_xp 1

end Progression

/-- A row of the `users` table (`app/models/user.py`), restricted to the
columns the progression / currency core reads and writes. -/
structure User where
  xp : Int
  level : Int
  balance : Int
deriving DecidableEq

/-- The error taxonomy of the Ledger operations.  The source raises
`ValueError` with distinct messages; the constructors follow the spec's
names: `invalidAmount` = "Amount must be positive", `accountNotFound` =
"User with id ... not found", `insufficientFunds` = "Insufficient funds". -/
inductive LedgerError
  | invalidAmount
  | accountNotFound
  | insufficientFunds
deriving DecidableEq

namespace Progression

/-- Python `round(x, 2)` — round half to even at two decimal places — on
exact rationals.  The source computes `progress_percent` in float
arithmetic; the model uses exact rational arithmetic (float rounding error
is not modelled; on the inputs appearing in the theorems below the float
computation is exact). -/
def pyround2 (q : ℚ) : ℚ :=
  let x := q * 100
  let n : Int := ⌊x⌋
  let frac := x - (n : ℚ)
  let r : Int :=
    if frac < 1/2 then n
    else if 1/2 < frac then n + 1
    else if n % 2 = 0 then n else n + 1
  (r : ℚ) / 100

/-- The dictionary returned by `get_progression_info` (progression.py:108-116). -/
structure ProgressionInfo where
  level : Int
  total_xp : Int
  xp_for_current_level : Int
  xp_for_next_level : Int
  xp_progress : Int
  xp_needed : Int
  progress_percent : ℚ
deriving DecidableEq

/-- Mirrors `get_progression_info` (progression.py:78-116). -/
def get_progression_info (total_xp : Int) : ProgressionInfo :=
  let current_level := calculate_level_from_xp total_xp
  let xp_for_current_level := calculate_total_xp_for_level current_level
  let xp_for_next_level := calculate_total_xp_for_level (current_level + 1)
  let xp_progress := total_xp - xp_for_current_level
  let xp_needed := xp_for_next_level - total_xp
  let e_for_next := calculate_e_for_level (current_level + 1)
  let progress_percent : ℚ :=
    if e_for_next > 0 then ((xp_progress : ℚ) / (e_for_next : ℚ)) * 100
    else (100 : ℚ)
  { level := current_level
    total_xp := total_xp
    xp_for_current_level := xp_for_current_level
    xp_for_next_level := xp_for_next_level
    xp_progress := xp_progress
    xp_needed := xp_needed
    progress_percent := pyround2 progress_percent }

/-- The dictionary returned by `award_xp`, restricted to the keys present in
both return paths (the `progression` sub-dictionary is
`get_progression_info` of the returned `total_xp`, and the non-zero path's
extra `old_level` / `old_xp` keys are omitted from the model). -/
structure AwardXpResult where
  level : Int
  total_xp : Int
  xp_awarded : Int
  level_increased : Bool
deriving DecidableEq

/-- Mirrors `award_xp` (progression.py:119-200).  The database session is
modelled as the user row being present or absent; the committed row is the
first component of the result.  Note the source treats `xp_amount == 0` as
a read-only success and explicitly allows negative amounts (docstring:
"может быть отрицательным"), clamping the new XP at 0. -/
def award_xp (user? : Option User) (xp_amount : Int) :
    Except LedgerError (User × AwardXpResult) :=
  if xp_amount = 0 then
    match user? with
    | none => .error .accountNotFound
    | some user =>
      .ok (user,
        { level := user.level, total_xp := user.xp, xp_awarded := 0,
          level_increased := false })
  else
    match user? with
    | none => .error .accountNotFound
    | some user =>
      let new_xp := max 0 (user.xp + xp_amount)
      let new_level := calculate_level_from_xp new_xp
      .ok ({ user with xp := new_xp, level := new_level },
        { level := new_level, total_xp := new_xp, xp_awarded := xp_amount,
          level_increased := decide (new_level > user.level) })

end Progression

namespace Currency

/-- The dictionary returned by `add_currency` (currency.py:77-81). -/
structure AddResult where
  balance : Int
  amount_added : Int
  old_balance : Int
deriving DecidableEq

/-- Mirrors `add_currency` (currency.py:17-81): reject `amount ≤ 0` as
`invalidAmount` before looking the user up, then credit.  The post-commit
best-effort hook (counter increment and badge progress update) does not
change the returned balance; it is modelled in the badge engine below. -/
def add_currency (user? : Option User) (amount : Int) :
    Except LedgerError (User × AddResult) :=
  if amount ≤ 0 then .error .invalidAmount
  else
    match user? with
    | none => .error .accountNotFound
    | some user =>
      let new_balance := user.balance + amount
      .ok ({ user with balance := new_balance },
        { balance := new_balance, amount_added := amount,
          old_balance := user.balance })

/-- The dictionary returned by `deduct_currency` (currency.py:136-140). -/
structure DeductResult where
  balance : Int
  amount_deducted : Int
  old_balance : Int
deriving DecidableEq

/-- Mirrors `deduct_currency` (currency.py:84-140): reject `amount ≤ 0` as
`invalidAmount`, then look the user up, then reject `balance < amount` as
`insufficientFunds`, else debit.  A failure raises before any mutation, so
the stored balance is unchanged exactly when the result is an error. -/
def deduct_currency (user? : Option User) (amount : Int) :
    Except LedgerError (User × DeductResult) :=
  if amount ≤ 0 then .error .invalidAmount
  else
    match user? with
    | none => .error .accountNotFound
    | some user =>
      if user.balance < amount then .error .insufficientFunds
      else
        let new_balance := user.balance - amount
        .ok ({ user with balance := new_balance },
          { balance := new_balance, amount_deducted := amount,
            old_balance := user.balance })

end Currency

/-- A `quests` row (`app/models/quest.py`), restricted to the columns the
per-record part of quest `update_progress` reads (`quest_type`,
`condition_key` and `is_active` only select which records the surrounding
loop visits). -/
structure Quest where
  target_value : Int
  reward_xp : Int
  reward_balance : Int
deriving DecidableEq

/-- A `user_quests` row for one `(user, quest, scope)` — the scope being the
quest date for daily quests and `NULL` for achievements. -/
structure UserQuest where
  progress : Int
  completed_at : Option Int
  claimed_at : Option Int
deriving DecidableEq

namespace QuestProgress

/-- The per-record body of quest `update_progress`
(quest_progress.py:102-203), from the completion guard on.
`counter_value` is what `get_counter` returns for the condition key; the
second and third components of the result are the XP and balance amounts
credited (`0` when nothing was paid; notifications and activity events are
external side effects).  Python's
`if quest.target_value and user_quest.progress >= quest.target_value`
treats the integer `0` as falsy.  On completion, `completed_at` and
`claimed_at` are set together (rewards are auto-claimed). -/
def update_progress_record (q : Quest) (counter_value increment : Int)
    (absolute_value : Option Int) (now : Int) (r : UserQuest) :
    UserQuest × Int × Int :=
  if r.completed_at = none then
    let newProgress :=
      if counter_value > 0 then counter_value
      else
        match absolute_value with
        | some a => max r.progress a
        | none => r.progress + increment
    if q.target_value ≠ 0 ∧ newProgress ≥ q.target_value then
      ({ progress := newProgress, completed_at := some now, claimed_at := some now },
       if q.reward_xp > 0 then q.reward_xp else 0,
       if q.reward_balance > 0 then q.reward_balance else 0)
    else ({ r with progress := newProgress }, 0, 0)
  else (r, 0, 0)

/-- One iteration of the quest loop for one matching quest: the `UserQuest`
row for the scope is fetched or lazily created with `progress = 0`
(quest_progress.py:56-100), then updated. -/
def update_progress (q : Quest) (r? : Option UserQuest) (counter_value increment : Int)
    (absolute_value : Option Int) (now : Int) : UserQuest × Int × Int :=
  update_progress_record q counter_value increment absolute_value now
    (r?.getD { progress := 0, completed_at := none, claimed_at := none })

end QuestProgress

/-- The `badges.badge_type` enum (`app/models/badge.py`). -/
inductive BadgeType
  | temporary
  | event
  | permanent
deriving DecidableEq

/-- A `badges` row, with the columns added by the achievements migrations
(`condition_key`, `target_value`, `auto_check`, `reward_xp`,
`reward_balance`). -/
structure Badge where
  badge_type : BadgeType
  condition_key : String
  target_value : Option Int
  reward_xp : Int
  reward_balance : Int
  auto_check : Bool
deriving DecidableEq

/-- A `user_badges` row for the model's `(user, badge)` pair — the
GrantRecord.  `id` stands for the row's primary key and tracks row identity
across deletion and re-creation. -/
structure UserBadge where
  id : Nat
  expires_at : Option Int
deriving DecidableEq

/-- A `user_badge_progress` row for the pair — the ProgressRecord. -/
structure UserBadgeProgress where
  progress : Int
  completed_at : Option Int
deriving DecidableEq

/-- The state the badge engine acts on, restricted to one user, one badge
and the one counter key (`currency_accumulated`) the credit hook feeds.
`xpPaid` and `balPaid` are ghost instrumentation: they count how many times
the engine paid the badge's XP / balance reward, and are read by no
definition.  `nextRowId` supplies fresh `user_badges` primary keys. -/
structure EngineState where
  user : User
  grant : Option UserBadge
  prog : Option UserBadgeProgress
  counter : Int
  xpPaid : Nat
  balPaid : Nat
  nextRowId : Nat
deriving DecidableEq

/-- Database-level failures of the engine: `uniqueViolation` is the
`uq_user_badge` unique-constraint `IntegrityError` at commit time;
`outOfFuel` marks a truncated reentrancy unrolling (unreachable from the
entry points, which supply ample fuel). -/
inductive EngineErr
  | uniqueViolation
  | outOfFuel
deriving DecidableEq

namespace BadgeProgress

/-- Python `existing.expires_at is None or existing.expires_at > now`. -/
def grantActive (g : UserBadge) (now : Int) : Bool :=
  match g.expires_at with
  | none => true
  | some t => decide (now < t)

/-- Python `badge.target_value and progress >= badge.target_value`
(badge_progress.py:102): `None` and `0` are falsy. -/
def targetReached (b : Badge) (v : Int) : Bool :=
  match b.target_value with
  | none => false
  | some t => decide (t ≠ 0) && decide (v ≥ t)

/-- Mirrors `increment_counter` (user_counters.py:16-53) for the model's
single counter key: no-op for `amount ≤ 0`, else an upsert add. -/
def increment_counter (amount : Int) (s : EngineState) : EngineState :=
  if amount ≤ 0 then s else { s with counter := s.counter + amount }

/-- Mirrors `award_xp` as invoked by `award_badge` for the badge's XP reward
(the amount is positive and the user row exists, so this is the success
path of `Progression.award_xp` applied to the engine's user row).
`xpPaid` is incremented as ghost instrumentation. -/
def apply_award_xp (amount : Int) (s : EngineState) : EngineState :=
  let new_xp := max 0 (s.user.xp + amount)
  let newUser := { s.user with
    xp := new_xp
    level := Progression.calculate_level_from_xp new_xp }
  { s with user := newUser, xpPaid := s.xpPaid + 1 }

mutual

/-- Mirrors `award_badge` (badge_progress.py:166-287) for the model's pair.
The fuel argument bounds the reentrancy loop
`award_badge → add_currency → update_progress → award_badge`; the entry
points below supply fuel 9, while the completion guard limits the real
call depth to at most 6, so the fuel-0 branch is unreachable from them.
Steps: an existing *active* grant is returned unchanged; an existing
*expired* grant row is deleted (badge_progress.py:202-206); when
`is_first_time`, the rewards are paid (each wrapped in try/except in the
source; neither can fail here since the user exists and the amounts are
positive); finally the new `UserBadge` row is inserted — hitting the
`uq_user_badge` unique constraint if a grant row reappeared meanwhile, in
which case the insert is rolled back while the already-committed payments
stand.  Notifications and activity events are external side effects. -/
def award_badge_f : Nat → Badge → Option Int → Bool → Int → EngineState →
    EngineState × Except EngineErr UserBadge
  | 0, _, _, _, _, s => (s, .error .outOfFuel)
  | fuel + 1, b, expires_at, is_first_time, now, s =>
    let payAndInsert : EngineState → EngineState × Except EngineErr UserBadge := fun s0 =>
      let s1 := if is_first_time then
          (if b.reward_xp > 0 then apply_award_xp b.reward_xp s0 else s0)
        else s0
      let s2 := if is_first_time then
          (if b.reward_balance > 0 then add_currency_hooked fuel b b.reward_balance now s1
           else s1)
        else s1
      match s2.grant with
      | some _ => (s2, .error .uniqueViolation)
      | none =>
        let g : UserBadge := { id := s2.nextRowId, expires_at := expires_at }
        ({ s2 with grant := some g, nextRowId := s2.nextRowId + 1 }, .ok g)
    match s.grant with
    | some existing =>
      if grantActive existing now then (s, .ok existing)
      else payAndInsert { s with grant := none }
    | none => payAndInsert s

/-- Mirrors `add_currency` (currency.py:17-81) as invoked from the badge
engine (amount positive, user present): credit the balance, then run the
post-commit best-effort hook — increment the `currency_accumulated`
counter and feed badge `update_progress` with that key.  `balPaid` is
incremented as ghost instrumentation. -/
def add_currency_hooked : Nat → Badge → Int → Int → EngineState → EngineState
  | fuel, b, amount, now, s =>
    let s1 := { s with
      user := { s.user with balance := s.user.balance + amount }
      balPaid := s.balPaid + 1 }
    let s2 := increment_counter amount s1
    match fuel with
    | 0 => s2
    | f + 1 => update_progress_f f b "currency_accumulated" amount now s2

/-- Mirrors badge `update_progress` (badge_progress.py:49-121) for the
model's single badge: early return on a zero increment; the badge matches
only if its `condition_key` equals the event's key; the
`UserBadgeProgress` row is fetched or created with `progress = 0`; if not
yet completed the increment is added, and on reaching the target
`completed_at` is set and the badge is awarded with `is_first_time=True`
unless a `UserBadge` row already exists.  The `Except` outcome of the
inner award is discarded, as the source ignores the return value (no
exception escapes it here: at the call the grant row is absent and
`completed_at` is already set, so the reentrant hook cannot re-insert). -/
def update_progress_f : Nat → Badge → String → Int → Int → EngineState → EngineState
  | fuel, b, condition_key, increment, now, s =>
    if increment = 0 then s
    else if b.condition_key ≠ condition_key then s
    else
      let p := s.prog.getD { progress := 0, completed_at := none }
      if p.completed_at = none then
        let p1 : UserBadgeProgress := { p with progress := p.progress + increment }
        if targetReached b p1.progress then
          let s1 := { s with prog := some { p1 with completed_at := some now } }
          match s1.grant with
          | some _ => s1
          | none =>
            match fuel with
            | 0 => s1
            | f + 1 => (award_badge_f f b none true now s1).1
        else { s with prog := some p1 }
      else { s with prog := some p }

end

/-- The `award_badge` entry point (fuel 9; see `award_badge_f`). -/
def award_badge (b : Badge) (expires_at : Option Int) (is_first_time : Bool)
    (now : Int) (s : EngineState) : EngineState × Except EngineErr UserBadge :=
  award_badge_f 9 b expires_at is_first_time now s

/-- Badge `update_progress` entry point (fuel 9). -/
def update_progress (b : Badge) (condition_key : String) (increment : Int)
    (now : Int) (s : EngineState) : EngineState :=
  update_progress_f 9 b condition_key increment now s

/-- Mirrors `extend_or_award_badge` (badge_progress.py:290-352):
`expires_at` is `now + 1h` for temporary badges and `None` otherwise; an
existing active grant is extended (temporary, with a non-`NULL`
`expires_at`) or returned; an existing expired grant is re-awarded with
`is_first_time=False` (no reward); a missing grant is awarded with
`is_first_time=True`. -/
def extend_or_award_badge (b : Badge) (now : Int) (s : EngineState) :
    EngineState × Except EngineErr UserBadge :=
  let expires_at : Option Int :=
    if b.badge_type = .temporary then some (now + 3600) else none
  match s.grant with
  | some existing =>
    if grantActive existing now then
      match existing.expires_at with
      | some _ =>
        if b.badge_type = .temporary then
          let g := { existing with expires_at := some (now + 3600) }
          ({ s with grant := some g }, .ok g)
        else (s, .ok existing)
      | none => (s, .ok existing)
    else award_badge b expires_at false now s
  | none => award_badge b expires_at true now s

/-- The core-engine operations that can touch the pair's rows.
`check_periodic_badges` (badge_progress.py:355-390) dispatches each
`auto_check` badge to its condition handler, and the only handler
implementing `check_and_extend_or_award` (`XPLeaderHandler`,
badge_conditions.py:61-87) just calls `extend_or_award_badge`, so it is
covered by `extendOrAward`. -/
inductive EngineOp
  | updateProgress (condition_key : String) (increment : Int)
  | awardBadge (expires_at : Option Int) (is_first_time : Bool)
  | extendOrAward
deriving DecidableEq

/-- Run one engine operation at time `now`. -/
def runOp (b : Badge) (op : EngineOp) (now : Int) (s : EngineState) : EngineState :=
  match op with
  | .updateProgress key inc => update_progress b key inc now s
  | .awardBadge e ft => (award_badge b e ft now s).1
  | .extendOrAward => (extend_or_award_badge b now s).1

/-- A sequence of `extend_or_award_badge` calls at the given times. -/
def runExtends (b : Badge) (nows : List Int) (s : EngineState) : EngineState :=
  nows.foldl (fun st t => (extend_or_award_badge b t st).1) s

end BadgeProgress

section ProgressionLemmas

open Progression

/-- Each level costs at least 100 XP: `E(l) ≥ 100` for every level `l ≥ 1`. -/
theorem e_for_level_ge (l : Int) (hl : 1 ≤ l) : 100 ≤ calculate_e_for_level l := by
  unfold calculate_e_for_level
  rw [if_neg (by omega)]
  have h9 : l + 9 = (l - 1) + 1 * 10 := by ring
  have : (l + 9) / 10 = (l - 1) / 10 + 1 := by
    rw [h9, Int.add_mul_ediv_right _ _ (by norm_num : (10 : Int) ≠ 0)]
  have hnn : 0 ≤ (l - 1) / 10 := Int.ediv_nonneg (by omega) (by norm_num)
  nlinarith [this, hnn]

/-- On natural-number levels, `calculate_total_xp_for_level` is the
recursive sum `total_xp_aux`. -/
theorem total_xp_for_level_nat (n : Nat) :
    calculate_total_xp_for_level (n : Int) = total_xp_aux n := by
  unfold calculate_total_xp_for_level
  cases n with
  | zero => simp [total_xp_aux]
  | succ m =>
    rw [if_neg (by exact_mod_cast Nat.not_lt.mpr (Nat.succ_le_succ (Nat.zero_le m)))]
    norm_num

/-- Each step of the curve adds at least 100 XP. -/
theorem total_xp_aux_step (n : Nat) :
    total_xp_aux n + 100 ≤ total_xp_aux (n + 1) := by
  have h := e_for_level_ge ((n : Int) + 1) (by omega)
  show total_xp_aux n + 100 ≤ total_xp_aux n + calculate_e_for_level ((n : Int) + 1)
  omega

/-- The sum `total_xp_aux` is monotone. -/
theorem total_xp_aux_mono {i j : Nat} (h : i ≤ j) :
    total_xp_aux i ≤ total_xp_aux j := by
  induction j with
  | zero =>
    have : i = 0 := by omega
    subst this
    exact le_refl _
  | succ m ih =>
    rcases Nat.lt_or_ge i (m + 1) with hlt | hge
    · have := ih (by omega)
      have := total_xp_aux_step m
      omega
    · have : i = m + 1 := by omega
      subst this
      exact le_refl _

/-- One unfolding of the level-search loop. -/
theorem levelLoop_unfold (t : Int) (l : Nat) :
    levelLoop t l =
      if t < calculate_total_xp_for_level ((l : Int) + 1) then (l : Int)
      else if l + 1 > 1000 then 1000
      else levelLoop t (l + 1) := by
  rw [levelLoop.eq_def]
  by_cases h1 : t < calculate_total_xp_for_level ((l : Int) + 1)
  · simp [h1]
  · by_cases h2 : l + 1 > 1000 <;> simp [h1, h2]

/-- The loop never returns less than the level it starts from
(for start levels within the cap). -/
theorem levelLoop_ge (t : Int) (l : Nat) (hl : l ≤ 1000) :
    (l : Int) ≤ levelLoop t l := by
  rw [levelLoop_unfold]
  by_cases h1 : t < calculate_total_xp_for_level ((l : Int) + 1)
  · simp [h1]
  · rw [if_neg h1]
    by_cases h2 : l + 1 > 1000
    · rw [if_pos h2]
      exact_mod_cast hl
    · rw [if_neg h2]
      have ih := levelLoop_ge t (l + 1) (by omega)
      have : (l : Int) ≤ ((l + 1 : Nat) : Int) := by push_cast; omega
      exact le_trans this ih
termination_by 1001 - l
decreasing_by omega

/-- The loop never exceeds the cap 1000 (for start levels within the cap). -/
theorem levelLoop_le (t : Int) (l : Nat) (hl : l ≤ 1000) :
    levelLoop t l ≤ 1000 := by
  rw [levelLoop_unfold]
  by_cases h1 : t < calculate_total_xp_for_level ((l : Int) + 1)
  · rw [if_pos h1]
    exact_mod_cast hl
  · rw [if_neg h1]
    by_cases h2 : l + 1 > 1000
    · simp [h2]
    · rw [if_neg h2]
      exact levelLoop_le t (l + 1) (by omega)
termination_by 1001 - l
decreasing_by omega

/-- The loop is monotone in the XP argument. -/
theorem levelLoop_mono (t1 t2 : Int) (h : t1 ≤ t2) (l : Nat) (hl : l ≤ 1000) :
    levelLoop t1 l ≤ levelLoop t2 l := by
  rw [levelLoop_unfold t1, levelLoop_unfold t2]
  by_cases h1 : t1 < calculate_total_xp_for_level ((l : Int) + 1)
  · rw [if_pos h1]
    by_cases h2 : t2 < calculate_total_xp_for_level ((l : Int) + 1)
    · rw [if_pos h2]
    · rw [if_neg h2]
      by_cases h3 : l + 1 > 1000
      · rw [if_pos h3]
        exact_mod_cast hl
      · rw [if_neg h3]
        have hge := levelLoop_ge t2 (l + 1) (by omega)
        have : (l : Int) ≤ ((l + 1 : Nat) : Int) := by push_cast; omega
        exact le_trans this hge
  · have h2 : ¬ t2 < calculate_total_xp_for_level ((l : Int) + 1) := by omega
    rw [if_neg h1, if_neg h2]
    by_cases h3 : l + 1 > 1000
    · simp [h3]
    · rw [if_neg h3, if_neg h3]
      exact levelLoop_mono t1 t2 h (l + 1) (by omega)
termination_by 1001 - l
decreasing_by omega

/-- Characterization of the loop: if `T(N) ≤ t < T(N+1)` and the loop starts
at or below `N ≤ 1000`, it returns exactly `N`. -/
theorem levelLoop_char (t : Int) (N l : Nat) (hlN : l ≤ N) (hN : N ≤ 1000)
    (hlo : total_xp_aux N ≤ t) (hhi : t < total_xp_aux (N + 1)) :
    levelLoop t l = (N : Int) := by
  rw [levelLoop_unfold]
  rcases Nat.lt_or_ge l N with hlt | hge
  · have hmono : total_xp_aux (l + 1) ≤ total_xp_aux N := total_xp_aux_mono (by omega)
    have h1 : ¬ t < calculate_total_xp_for_level ((l : Int) + 1) := by
      have hc : ((l : Int) + 1) = ((l + 1 : Nat) : Int) := by push_cast; ring
      rw [hc, total_xp_for_level_nat]
      omega
    rw [if_neg h1, if_neg (by omega : ¬ l + 1 > 1000)]
    exact levelLoop_char t N (l + 1) (by omega) hN hlo hhi
  · have hEq : l = N := by omega
    subst hEq
    have h1 : t < calculate_total_xp_for_level ((l : Int) + 1) := by
      have hc : ((l : Int) + 1) = ((l + 1 : Nat) : Int) := by push_cast; ring
      rw [hc, total_xp_for_level_nat]
      omega
    rw [if_pos h1]
termination_by 1001 - l
decreasing_by omega

/-- The sum `total_xp_aux` is non-negative. -/
theorem total_xp_aux_nonneg (n : Nat) : 0 ≤ total_xp_aux n :=
  total_xp_aux_mono (Nat.zero_le n)

end ProgressionLemmas

section ClaimProgression

open Progression

/-- Claim C1, amended (boundary exactness of the leveling curve): for every
level `N` in `1..1000`, `calculate_level_from_xp (calculate_total_xp_for_level N) = N`;
and for every `N` in `2..1000`,
`calculate_level_from_xp (calculate_total_xp_for_level N - 1) = N - 1`.
(At `N = 1` the second identity fails: the level function never returns
below 1, see the counterexample.) -/
theorem C1_curve_boundary (N : Nat) (h1 : 1 ≤ N) (h2 : N ≤ 1000) :
    calculate_level_from_xp (calculate_total_xp_for_level (N : Int)) = (N : Int) ∧
    (2 ≤ N → calculate_level_from_xp (calculate_total_xp_for_level (N : Int) - 1) = (N : Int) - 1) := by
  rw [total_xp_for_level_nat]
  constructor
  · have hnn : 0 ≤ total_xp_aux N := total_xp_aux_nonneg N
    unfold calculate_level_from_xp
    rw [if_neg (by omega)]
    exact levelLoop_char _ N 1 h1 h2 (le_refl _) (by have := total_xp_aux_step N; omega)
  · intro hN2
    have hs1 : total_xp_aux (N - 1) + 100 ≤ total_xp_aux (N - 1 + 1) := total_xp_aux_step (N - 1)
    have hE : N - 1 + 1 = N := by omega
    rw [hE] at hs1
    have hnn : 0 ≤ total_xp_aux (N - 1) := total_xp_aux_nonneg (N - 1)
    unfold calculate_level_from_xp
    rw [if_neg (by omega)]
    have hchar := levelLoop_char (total_xp_aux N - 1) (N - 1) 1 (by omega) (by omega)
      (by omega) (by rw [hE]; omega)
    rw [hchar]
    push_cast [Nat.cast_sub (by omega : 1 ≤ N)]
    ring

/-- Witness for C1 at `N = 5`. -/
theorem C1_curve_boundary_witness :
    calculate_level_from_xp (calculate_total_xp_for_level ((5 : Nat) : Int)) = ((5 : Nat) : Int) ∧
    calculate_level_from_xp (calculate_total_xp_for_level ((5 : Nat) : Int) - 1) = ((5 : Nat) : Int) - 1 :=
  ⟨(C1_curve_boundary 5 (by norm_num) (by norm_num)).1,
   (C1_curve_boundary 5 (by norm_num) (by norm_num)).2 (by norm_num)⟩

/-- Counterexample to C1 as stated: at `N = 1`,
`calculate_level_from_xp (calculate_total_xp_for_level 1 - 1)` is `1`, not `0`:
the level function clamps at level 1 (here `T(1) - 1 = 99`). -/
theorem C1_counterexample :
    ¬ (calculate_level_from_xp (calculate_total_xp_for_level ((1 : Nat) : Int) - 1)
        = ((1 : Nat) : Int) - 1) := by
  have hT : calculate_total_xp_for_level ((1 : Nat) : Int) = 100 := by
    norm_num [calculate_total_xp_for_level, total_xp_aux, calculate_e_for_level]
  have hT2 : calculate_total_xp_for_level (2 : Int) = 200 := by
    norm_num [calculate_total_xp_for_level, total_xp_aux, calculate_e_for_level]
  rw [hT]
  unfold calculate_level_from_xp
  rw [if_neg (by norm_num), levelLoop_unfold]
  norm_num [hT2]

/-- Claim C9 (level monotonicity): for `0 ≤ xp1 ≤ xp2`,
`calculate_level_from_xp xp1 ≤ calculate_level_from_xp xp2`. -/
theorem C9_level_monotone (xp1 xp2 : Int) (h0 : 0 ≤ xp1) (h12 : xp1 ≤ xp2) :
    calculate_level_from_xp xp1 ≤ calculate_level_from_xp xp2 := by
  unfold calculate_level_from_xp
  rw [if_neg (by omega), if_neg (by omega)]
  exact levelLoop_mono xp1 xp2 h12 1 (by norm_num)

/-- Witness for C9 at `(0, 5)`. -/
theorem C9_level_monotone_witness :
    calculate_level_from_xp 0 ≤ calculate_level_from_xp 5 :=
  C9_level_monotone 0 5 (by norm_num) (by norm_num)

/-- Claim C10 (totality and range): `calculate_level_from_xp` is a total
function (it is defined by well-founded recursion bounded by the cap) whose
value lies in `[1, 1000]` for every integer input, and it returns `1` on
every negative input. -/
theorem C10_level_total_range (xp : Int) :
    (1 ≤ calculate_level_from_xp xp ∧ calculate_level_from_xp xp ≤ 1000) ∧
    (xp < 0 → calculate_level_from_xp xp = 1) := by
  constructor
  · unfold calculate_level_from_xp
    by_cases h : xp < 0
    · simp [h]
    · rw [if_neg h]
      refine ⟨?_, levelLoop_le xp 1 (by norm_num)⟩
      have := levelLoop_ge xp 1 (by norm_num)
      exact_mod_cast this
  · intro h
    simp [calculate_level_from_xp, h]

/-- Witness for C10 at `xp = -7`. -/
theorem C10_level_total_range_witness :
    calculate_level_from_xp (-7) = 1 :=
  (C10_level_total_range (-7)).2 (by norm_num)

end ClaimProgression

section ClaimCurrency

/-- Claim C4 (debit raises-iff and atomicity): `deduct_currency` fails with
`invalidAmount` exactly when `amount ≤ 0`; fails with `insufficientFunds`
exactly when `amount > 0` and the user exists with balance below `amount`;
fails with `accountNotFound` exactly when `amount > 0` and the user is
absent; and on the success path the new balance is the old balance minus
`amount` and is non-negative.  Failures return before any mutation, so the
stored balance is unchanged on every failure. -/
theorem C4_deduct_characterization (user? : Option User) (amount : Int) :
    (Currency.deduct_currency user? amount = .error .invalidAmount ↔ amount ≤ 0) ∧
    (Currency.deduct_currency user? amount = .error .insufficientFunds ↔
      0 < amount ∧ ∃ u, user? = some u ∧ u.balance < amount) ∧
    (Currency.deduct_currency user? amount = .error .accountNotFound ↔
      0 < amount ∧ user? = none) ∧
    (∀ u, user? = some u → 0 < amount → amount ≤ u.balance →
      Currency.deduct_currency user? amount =
        .ok ({ u with balance := u.balance - amount },
          { balance := u.balance - amount, amount_deducted := amount,
            old_balance := u.balance }) ∧
      0 ≤ u.balance - amount) := by
  by_cases h : amount ≤ 0
  · have he : Currency.deduct_currency user? amount = .error .invalidAmount := by
      unfold Currency.deduct_currency
      rw [if_pos h]
    refine ⟨⟨fun _ => h, fun _ => he⟩, ?_, ?_, ?_⟩
    · rw [he]
      simp only [Except.error.injEq]
      constructor
      · intro hx
        cases hx
      · rintro ⟨h1, -⟩
        omega
    · rw [he]
      simp only [Except.error.injEq]
      constructor
      · intro hx
        cases hx
      · rintro ⟨h1, -⟩
        omega
    · intro u hu h1 h2
      omega
  · push_neg at h
    match user? with
    | none =>
      have he : Currency.deduct_currency none amount = .error .accountNotFound := by
        unfold Currency.deduct_currency
        rw [if_neg (by omega)]
      refine ⟨?_, ?_, ?_, ?_⟩
      · rw [he]
        simp only [Except.error.injEq]
        constructor
        · intro hx
          cases hx
        · intro hx
          omega
      · rw [he]
        simp only [Except.error.injEq]
        constructor
        · intro hx
          cases hx
        · rintro ⟨-, u, hu, -⟩
          cases hu
      · exact ⟨fun _ => ⟨h, rfl⟩, fun _ => he⟩
      · intro u hu
        cases hu
    | some u =>
      by_cases hb : u.balance < amount
      · have he : Currency.deduct_currency (some u) amount = .error .insufficientFunds := by
          unfold Currency.deduct_currency
          rw [if_neg (by omega)]
          simp only []
          rw [if_pos hb]
        refine ⟨?_, ?_, ?_, ?_⟩
        · rw [he]
          simp only [Except.error.injEq]
          constructor
          · intro hx
            cases hx
          · intro hx
            omega
        · rw [he]
          exact ⟨fun _ => ⟨h, u, rfl, hb⟩, fun _ => rfl⟩
        · rw [he]
          simp only [Except.error.injEq]
          constructor
          · intro hx
            cases hx
          · rintro ⟨-, hx⟩
            cases hx
        · intro v hv h1 h2
          rw [Option.some.injEq] at hv
          subst hv
          omega
      · push_neg at hb
        have he : Currency.deduct_currency (some u) amount =
            .ok ({ u with balance := u.balance - amount },
              { balance := u.balance - amount, amount_deducted := amount,
                old_balance := u.balance }) := by
          unfold Currency.deduct_currency
          rw [if_neg (by omega)]
          simp only []
          rw [if_neg (by omega)]
        refine ⟨?_, ?_, ?_, ?_⟩
        · rw [he]
          constructor
          · intro hx
            cases hx
          · intro hx
            omega
        · rw [he]
          constructor
          · intro hx
            cases hx
          · rintro ⟨-, v, hv, hvb⟩
            rw [Option.some.injEq] at hv
            subst hv
            omega
        · rw [he]
          constructor
          · intro hx
            cases hx
          · rintro ⟨-, hx⟩
            cases hx
        · intro v hv h1 h2
          rw [Option.some.injEq] at hv
          subst hv
          exact ⟨he, by omega⟩

/-- Witness for C4: a user with balance 10 debited by 3. -/
theorem C4_deduct_characterization_witness :
    Currency.deduct_currency (some { xp := 0, level := 1, balance := 10 }) 3 =
      .ok ({ xp := 0, level := 1, balance := 7 },
        { balance := 7, amount_deducted := 3, old_balance := 10 }) ∧
    (0 : Int) ≤ 7 := by
  have h := (C4_deduct_characterization (some { xp := 0, level := 1, balance := 10 }) 3).2.2.2
    { xp := 0, level := 1, balance := 10 } rfl (by norm_num) (by norm_num)
  refine ⟨?_, by norm_num⟩
  have h1 := h.1
  norm_num at h1
  exact h1

/-- Counterexample to C6 as stated: `award_xp` with the non-positive amount
`-1` succeeds (the source's docstring explicitly allows negative amounts,
clamping XP at 0) instead of failing with `invalidAmount`. -/
theorem C6_counterexample :
    (Progression.award_xp (some { xp := 5, level := 1, balance := 0 }) (-1)).isOk = true := by
  rfl

/-- Claim C6, amended: `add_currency` rejects every `amount ≤ 0` with
`invalidAmount` (before even looking at the user, so no balance changes),
but `award_xp` accepts non-positive amounts: `0` is a read-only success
returning the unchanged user, and a negative amount succeeds with the new
XP clamped at `max 0 (xp + amount)`. -/
theorem C6_credit_invalid_amount (u : User) (a : Int) :
    (a ≤ 0 → ∀ (v? : Option User), Currency.add_currency v? a = .error .invalidAmount) ∧
    Progression.award_xp (some u) 0 =
      .ok (u, { level := u.level, total_xp := u.xp, xp_awarded := 0, level_increased := false }) ∧
    (a < 0 → (Progression.award_xp (some u) a).toOption.map (fun p => p.1.xp) =
      some (max 0 (u.xp + a))) := by
  refine ⟨?_, ?_, ?_⟩
  · intro ha v?
    unfold Currency.add_currency
    rw [if_pos ha]
  · unfold Progression.award_xp
    rw [if_pos rfl]
  · intro ha
    unfold Progression.award_xp
    rw [if_neg (by omega)]
    rfl

/-- Witness for C6 at `u = ⟨5, 1, 0⟩`, `a = -1`. -/
theorem C6_credit_invalid_amount_witness :
    Currency.add_currency (none : Option User) (-1) = .error .invalidAmount ∧
    (Progression.award_xp (some { xp := 5, level := 1, balance := 0 }) (-1)).toOption.map
      (fun p => p.1.xp) = some (max 0 (5 + -1)) :=
  ⟨(C6_credit_invalid_amount { xp := 5, level := 1, balance := 0 } (-1)).1 (by norm_num) none,
   (C6_credit_invalid_amount { xp := 5, level := 1, balance := 0 } (-1)).2.2 (by norm_num)⟩

end ClaimCurrency

section ClaimPercent

open Progression

/-- Value of the curve at level 2: `T(2) = 200`. -/
theorem total_xp_two : calculate_total_xp_for_level 2 = 200 := by
  norm_num [calculate_total_xp_for_level, total_xp_aux, calculate_e_for_level]

/-- Zero XP corresponds to level 1: `calculate_level_from_xp 0 = 1`. -/
theorem level_from_xp_zero : calculate_level_from_xp 0 = 1 := by
  unfold calculate_level_from_xp
  rw [if_neg (by norm_num), levelLoop_unfold]
  norm_num [total_xp_two]

/-- Claim C7 (code bug): `get_progression_info` does not clamp
`progress_percent` to `[0, 100]`.  At `xp = 0` the current level is 1 with
`T(1) = 100`, so `xp_progress = -100` and the returned `progress_percent`
is `-100` — below the range the spec and the function's own docstring
("0-100") promise.  (Symmetrically, above the level-1000 cap the value
exceeds 100, e.g. 200 at `xp = T(1001) + E(1001)`.) -/
theorem C7_progress_percent_out_of_range :
    (Progression.get_progression_info 0).progress_percent = -100 ∧
    (Progression.get_progression_info 0).progress_percent < 0 := by
  have hround : pyround2 (-100) = -100 := by
    unfold pyround2
    have hx : (-100 : ℚ) * 100 = ((-10000 : Int) : ℚ) := by norm_num
    rw [hx]
    simp only [Int.floor_intCast]
    norm_num
  have hT1 : calculate_total_xp_for_level 1 = 100 := by
    norm_num [calculate_total_xp_for_level, total_xp_aux, calculate_e_for_level]
  have hE2 : calculate_e_for_level 2 = 100 := by
    norm_num [calculate_e_for_level]
  have h : (Progression.get_progression_info 0).progress_percent = -100 := by
    unfold get_progression_info
    simp only [level_from_xp_zero]
    norm_num [hT1, total_xp_two, hE2]
    convert hround using 2
  exact ⟨h, by rw [h]; norm_num⟩

end ClaimPercent

section BadgeLemmas

open BadgeProgress

/-- Badge `update_progress` is the identity when the pair's progress record
is already completed (the whole body sits under the
`if progress.completed_at is None` guard). -/
theorem update_progress_f_completed_noop (f : Nat) (b : Badge) (key : String)
    (inc now t : Int) (s : EngineState) (p : UserBadgeProgress)
    (hp : s.prog = some p) (hpc : p.completed_at = some t) :
    update_progress_f f b key inc now s = s := by
  unfold update_progress_f
  by_cases h0 : inc = 0
  · rw [if_pos h0]
  · rw [if_neg h0]
    by_cases hk : b.condition_key ≠ key
    · rw [if_pos hk]
    · rw [if_neg hk]
      simp only [hp, Option.getD_some]
      rw [if_neg (by simp [hpc])]
      conv_lhs => rw [← hp]

/-- Badge `update_progress` is the identity when the event's condition key
does not match the badge's. -/
theorem update_progress_f_keymismatch (f : Nat) (b : Badge) (key : String)
    (inc now : Int) (s : EngineState) (hk : b.condition_key ≠ key) :
    update_progress_f f b key inc now s = s := by
  unfold update_progress_f
  by_cases h0 : inc = 0
  · rw [if_pos h0]
  · rw [if_neg h0, if_pos hk]

/-- The counter upsert `increment_counter` does not touch the progress record, the grant row or
the ghost payment counts. -/
theorem increment_counter_fields (amount : Int) (s : EngineState) :
    (increment_counter amount s).prog = s.prog ∧
    (increment_counter amount s).grant = s.grant ∧
    (increment_counter amount s).xpPaid = s.xpPaid ∧
    (increment_counter amount s).balPaid = s.balPaid := by
  unfold increment_counter
  split <;> simp

/-- The credit hook leaves the pair's progress record alone when it is
already completed; only balance, ghost `balPaid` and the counter move. -/
theorem add_currency_hooked_completed (f : Nat) (b : Badge) (amount now t : Int)
    (s : EngineState) (p : UserBadgeProgress)
    (hp : s.prog = some p) (hpc : p.completed_at = some t) :
    add_currency_hooked f b amount now s =
      (increment_counter amount
        { s with
          user := { s.user with balance := s.user.balance + amount }
          balPaid := s.balPaid + 1 }) := by
  unfold add_currency_hooked
  cases f with
  | zero => rfl
  | succ f =>
    refine update_progress_f_completed_noop f b _ amount now t _ p ?_ hpc
    rw [(increment_counter_fields amount _).1]
    exact hp

/-- Function `award_badge` never changes a completed progress record (its reentrant
credit hook is cut off by the completion guard). -/
theorem award_badge_f_completed_prog (f : Nat) (b : Badge) (e : Option Int)
    (ft : Bool) (now t : Int) (s : EngineState) (p : UserBadgeProgress)
    (hp : s.prog = some p) (hpc : p.completed_at = some t) :
    (award_badge_f f b e ft now s).1.prog = some p := by
  cases f with
  | zero => exact hp
  | succ f =>
    unfold award_badge_f
    have hpay : ∀ s0 : EngineState, s0.prog = some p →
        ((if ft then (if b.reward_xp > 0 then apply_award_xp b.reward_xp s0 else s0)
          else s0) : EngineState).prog = some p := by
      intro s0 h0
      split
      · split
        · simpa [apply_award_xp] using h0
        · exact h0
      · exact h0
    have hbal : ∀ s1 : EngineState, s1.prog = some p →
        ((if ft then (if b.reward_balance > 0 then add_currency_hooked f b b.reward_balance now s1
            else s1) else s1) : EngineState).prog = some p := by
      intro s1 h1
      split
      · split
        · rw [add_currency_hooked_completed f b _ now t s1 p h1 hpc]
          rw [(increment_counter_fields _ _).1]
          exact h1
        · exact h1
      · exact h1
    cases hg : s.grant with
    | some existing =>
      simp only [hg]
      split
      · exact hp
      · have h2 := hbal _ (hpay ({ s with grant := none }) hp)
        split
        · exact h2
        · exact h2
    | none =>
      simp only [hg]
      have h2 := hbal _ (hpay s hp)
      split
      · exact h2
      · exact h2

end BadgeLemmas

section ClaimFrozen

open BadgeProgress

/-- Claim C3 (completion freezes progress): for a `(user, quest, scope)`
record whose `completed_at` is set, a further quest `update_progress` for
that scope returns the record unchanged and credits nothing; and for a
badge progress record whose `completed_at` is set, a further badge
`update_progress` leaves the whole engine state unchanged (no progress
change, no payment, no award). -/
theorem C3_completed_frozen (q : Quest) (cv inc : Int) (av : Option Int) (now t1 : Int)
    (r : UserQuest) (hr : r.completed_at = some t1)
    (b : Badge) (key : String) (inc2 now2 t2 : Int) (s : EngineState)
    (p : UserBadgeProgress) (hp : s.prog = some p) (hpc : p.completed_at = some t2) :
    QuestProgress.update_progress q (some r) cv inc av now = (r, 0, 0) ∧
    BadgeProgress.update_progress b key inc2 now2 s = s := by
  constructor
  · unfold QuestProgress.update_progress QuestProgress.update_progress_record
    simp [hr]
  · exact update_progress_f_completed_noop 9 b key inc2 now2 t2 s p hp hpc

/-- Witness for C3: a completed quest record and a completed badge record. -/
theorem C3_completed_frozen_witness :
    QuestProgress.update_progress { target_value := 10, reward_xp := 5, reward_balance := 5 }
      (some { progress := 10, completed_at := some 7, claimed_at := some 7 }) 0 1 none 50 =
      ({ progress := 10, completed_at := some 7, claimed_at := some 7 }, 0, 0) ∧
    BadgeProgress.update_progress
      { badge_type := .permanent, condition_key := "k", target_value := some 10,
        reward_xp := 0, reward_balance := 0, auto_check := false } "k" 1 50
      { user := { xp := 0, level := 1, balance := 0 }, grant := none,
        prog := some { progress := 10, completed_at := some 7 }, counter := 0,
        xpPaid := 0, balPaid := 0, nextRowId := 0 } =
      { user := { xp := 0, level := 1, balance := 0 }, grant := none,
        prog := some { progress := 10, completed_at := some 7 }, counter := 0,
        xpPaid := 0, balPaid := 0, nextRowId := 0 } :=
  C3_completed_frozen { target_value := 10, reward_xp := 5, reward_balance := 5 } 0 1 none 50 7
    { progress := 10, completed_at := some 7, claimed_at := some 7 } rfl
    { badge_type := .permanent, condition_key := "k", target_value := some 10,
      reward_xp := 0, reward_balance := 0, auto_check := false } "k" 1 50 7
    { user := { xp := 0, level := 1, balance := 0 }, grant := none,
      prog := some { progress := 10, completed_at := some 7 }, counter := 0,
      xpPaid := 0, balPaid := 0, nextRowId := 0 }
    { progress := 10, completed_at := some 7 } rfl rfl

/-- Counterexample to C8 as stated: the badge-side `update_progress` never
reads the Counter Store.  With the counter for the badge's own condition
key (`currency_accumulated`) holding the nonzero value 40, a badge progress
update with delta 2 moves the record from 3 to 5 — not to the counter's
value 40 as the claimed precedence (a) would require. -/
theorem C8_counterexample :
    (BadgeProgress.update_progress
      { badge_type := .permanent, condition_key := "currency_accumulated",
        target_value := none, reward_xp := 0, reward_balance := 0, auto_check := false }
      "currency_accumulated" 2 0
      { user := { xp := 0, level := 1, balance := 0 }, grant := none,
        prog := some { progress := 3, completed_at := none }, counter := 40,
        xpPaid := 0, balPaid := 0, nextRowId := 0 }).prog =
      some { progress := 5, completed_at := none } := by
  rfl

/-- Claim C8, amended (progress-value precedence): for a not-yet-completed
record, *quest* `update_progress` determines the new progress with the
claimed precedence — the Counter Store's value when it is positive, else
`max(current, absolute)` when an absolute value was supplied, else current
plus delta — while *badge* `update_progress` always adds the delta (it
reads no counter and accepts no absolute value). -/
theorem C8_progress_value_precedence (q : Quest) (cv inc : Int) (av : Option Int)
    (now : Int) (r : UserQuest) (hr : r.completed_at = none)
    (b : Badge) (inc2 now2 : Int) (hinc2 : inc2 ≠ 0) (s : EngineState)
    (p : UserBadgeProgress) (hp : s.prog = some p) (hpc : p.completed_at = none) :
    (QuestProgress.update_progress q (some r) cv inc av now).1.progress =
      (if cv > 0 then cv
       else match av with
            | some a => max r.progress a
            | none => r.progress + inc) ∧
    ((BadgeProgress.update_progress b b.condition_key inc2 now2 s).prog.map
      (fun x => x.progress)) = some (p.progress + inc2) := by
  constructor
  · unfold QuestProgress.update_progress QuestProgress.update_progress_record
    simp only [Option.getD_some, if_pos hr]
    split <;> split <;> rfl
  · show (BadgeProgress.update_progress_f 9 b b.condition_key inc2 now2 s).prog.map
      (fun x => x.progress) = some (p.progress + inc2)
    unfold update_progress_f
    rw [if_neg hinc2, if_neg (by simp)]
    simp only [hp, Option.getD_some, if_pos hpc]
    split
    · cases hg : s.grant with
      | some g => simp [hg]
      | none =>
        simp only [hg]
        rw [award_badge_f_completed_prog 8 b none true now2 now2 _
          { progress := p.progress + inc2, completed_at := some now2 } rfl rfl]
        rfl
    · rfl

/-- Witness for C8: a quest record at 3 with a positive counter 40, and a
badge record at 3 incremented by 2. -/
theorem C8_progress_value_precedence_witness :
    (QuestProgress.update_progress { target_value := 100, reward_xp := 0, reward_balance := 0 }
      (some { progress := 3, completed_at := none, claimed_at := none }) 40 2 none 0).1.progress =
      (if (40 : Int) > 0 then (40 : Int)
       else match (none : Option Int) with
            | some a => max (3 : Int) a
            | none => (3 : Int) + 2) ∧
    ((BadgeProgress.update_progress
      { badge_type := .permanent, condition_key := "currency_accumulated",
        target_value := none, reward_xp := 0, reward_balance := 0, auto_check := false }
      "currency_accumulated" 2 0
      { user := { xp := 0, level := 1, balance := 0 }, grant := none,
        prog := some { progress := 3, completed_at := none }, counter := 40,
        xpPaid := 0, balPaid := 0, nextRowId := 0 }).prog.map
      (fun x => x.progress)) = some ((3 : Int) + 2) :=
  C8_progress_value_precedence { target_value := 100, reward_xp := 0, reward_balance := 0 }
    40 2 none 0 { progress := 3, completed_at := none, claimed_at := none } rfl
    { badge_type := .permanent, condition_key := "currency_accumulated",
      target_value := none, reward_xp := 0, reward_balance := 0, auto_check := false }
    2 0 (by norm_num)
    { user := { xp := 0, level := 1, balance := 0 }, grant := none,
      prog := some { progress := 3, completed_at := none }, counter := 40,
      xpPaid := 0, balPaid := 0, nextRowId := 0 }
    { progress := 3, completed_at := none } rfl rfl

end ClaimFrozen

section GrantLemmas

open BadgeProgress

/-- Badge `update_progress` never touches an existing grant row (it only
awards when no `UserBadge` row exists). -/
theorem update_progress_f_grant_some (f : Nat) (b : Badge) (key : String)
    (inc now : Int) (s : EngineState) (g : UserBadge) (hg : s.grant = some g) :
    (update_progress_f f b key inc now s).grant = some g := by
  unfold update_progress_f
  by_cases h0 : inc = 0
  · rw [if_pos h0]
    exact hg
  · rw [if_neg h0]
    by_cases hk : b.condition_key ≠ key
    · rw [if_pos hk]
      exact hg
    · rw [if_neg hk]
      dsimp only
      by_cases hc : (s.prog.getD { progress := 0, completed_at := none }).completed_at = none
      · rw [if_pos hc]
        by_cases ht : targetReached b
            ((s.prog.getD { progress := 0, completed_at := none }).progress + inc) = true
        · rw [if_pos ht]
          simp [hg]
        · rw [if_neg ht]
          exact hg
      · rw [if_neg hc]
        exact hg

/-- Function `award_badge` always leaves a grant row for the pair in place. -/
theorem award_badge_f_grant_isSome (f : Nat) (b : Badge) (e : Option Int) (ft : Bool)
    (now : Int) (s : EngineState) :
    ((award_badge_f (f + 1) b e ft now s).1.grant).isSome = true := by
  unfold award_badge_f
  cases hg : s.grant with
  | some existing =>
    simp only [hg]
    split
    · simp [hg]
    · split <;> simp_all
  | none =>
    simp only [hg]
    split <;> simp_all

/-- Function `award_badge` returns an existing active grant unchanged, paying
nothing. -/
theorem award_badge_f_active (f : Nat) (b : Badge) (e : Option Int) (ft : Bool)
    (now : Int) (s : EngineState) (g : UserBadge) (hg : s.grant = some g)
    (hact : grantActive g now = true) :
    award_badge_f (f + 1) b e ft now s = (s, .ok g) := by
  unfold award_badge_f
  simp [hg, hact]

end GrantLemmas

section ClaimGrant

open BadgeProgress

/-- Counterexample to C5 as stated: `extend_or_award_badge` on an *expired*
grant goes through `award_badge`, which deletes the expired `UserBadge` row
(badge_progress.py:202-206) and inserts a fresh one: the row with id 0 that
existed before the call is gone afterwards (only the new row 1 exists). -/
theorem C5_counterexample :
    (BadgeProgress.runOp
      { badge_type := .permanent, condition_key := "k", target_value := none,
        reward_xp := 0, reward_balance := 0, auto_check := false }
      .extendOrAward 100
      { user := { xp := 0, level := 1, balance := 0 },
        grant := some { id := 0, expires_at := some 10 }, prog := none, counter := 0,
        xpPaid := 0, balPaid := 0, nextRowId := 1 }).grant =
      some { id := 1, expires_at := none } := by
  rfl

/-- Claim C5, amended: no core-engine operation (`update_progress`,
`award_badge`, `extend_or_award_badge`, and `check_periodic_badges`, which
reduces to `extend_or_award_badge`) ever *removes* the pair's grant: after
any operation a `UserBadge` row still exists, and an *active* (unexpired)
grant row survives as the same row (same primary key; a temporary
extension only pushes its `expires_at` forward).  Only an *expired* row is
deleted — and then immediately replaced by a fresh row within the same
`award_badge` call. -/
theorem C5_grant_never_lost (b : Badge) (op : EngineOp) (now : Int) (s : EngineState)
    (g : UserBadge) (hg : s.grant = some g) :
    ((BadgeProgress.runOp b op now s).grant).isSome = true ∧
    (BadgeProgress.grantActive g now = true →
      ∃ g2, (BadgeProgress.runOp b op now s).grant = some g2 ∧ g2.id = g.id) := by
  cases op with
  | updateProgress key inc =>
    have h := update_progress_f_grant_some 9 b key inc now s g hg
    constructor
    · show ((update_progress_f 9 b key inc now s).grant).isSome = true
      rw [h]
      rfl
    · intro _
      exact ⟨g, h, rfl⟩
  | awardBadge e ft =>
    constructor
    · exact award_badge_f_grant_isSome 8 b e ft now s
    · intro hact
      have h9 : award_badge_f 9 b e ft now s = (s, .ok g) :=
        award_badge_f_active 8 b e ft now s g hg hact
      refine ⟨g, ?_, rfl⟩
      show (award_badge_f 9 b e ft now s).1.grant = some g
      rw [h9]
      exact hg
  | extendOrAward =>
    show ((extend_or_award_badge b now s).1.grant).isSome = true ∧
      (grantActive g now = true →
        ∃ g2, (extend_or_award_badge b now s).1.grant = some g2 ∧ g2.id = g.id)
    unfold extend_or_award_badge
    simp only [hg]
    by_cases hact : grantActive g now = true
    · rw [if_pos hact]
      cases he : g.expires_at with
      | some t =>
        simp only [he]
        by_cases htmp : b.badge_type = .temporary
        · rw [if_pos htmp]
          exact ⟨rfl, fun _ => ⟨{ g with expires_at := some (now + 3600) }, rfl, rfl⟩⟩
        · rw [if_neg htmp]
          refine ⟨?_, fun _ => ⟨g, ?_, rfl⟩⟩
          · show (s.grant).isSome = true
            rw [hg]
            rfl
          · exact hg
      | none =>
        simp only [he]
        refine ⟨?_, fun _ => ⟨g, ?_, rfl⟩⟩
        · show (s.grant).isSome = true
          rw [hg]
          rfl
        · exact hg
    · rw [if_neg hact]
      refine ⟨award_badge_f_grant_isSome 8 b _ false now s,
        fun hact2 => absurd hact2 hact⟩

/-- Witness for C5: an active permanent grant survives an
`extend_or_award_badge` pass unchanged. -/
theorem C5_grant_never_lost_witness :
    ((BadgeProgress.runOp
      { badge_type := .permanent, condition_key := "k", target_value := none,
        reward_xp := 0, reward_balance := 0, auto_check := false }
      .extendOrAward 100
      { user := { xp := 0, level := 1, balance := 0 },
        grant := some { id := 0, expires_at := none }, prog := none, counter := 0,
        xpPaid := 0, balPaid := 0, nextRowId := 1 }).grant).isSome = true ∧
    (BadgeProgress.grantActive { id := 0, expires_at := none } 100 = true →
      ∃ g2, (BadgeProgress.runOp
        { badge_type := .permanent, condition_key := "k", target_value := none,
          reward_xp := 0, reward_balance := 0, auto_check := false }
        .extendOrAward 100
        { user := { xp := 0, level := 1, balance := 0 },
          grant := some { id := 0, expires_at := none }, prog := none, counter := 0,
          xpPaid := 0, balPaid := 0, nextRowId := 1 }).grant = some g2 ∧ g2.id = 0) :=
  C5_grant_never_lost
    { badge_type := .permanent, condition_key := "k", target_value := none,
      reward_xp := 0, reward_balance := 0, auto_check := false }
    .extendOrAward 100
    { user := { xp := 0, level := 1, balance := 0 },
      grant := some { id := 0, expires_at := none }, prog := none, counter := 0,
      xpPaid := 0, balPaid := 0, nextRowId := 1 }
    { id := 0, expires_at := none } rfl

end ClaimGrant

section AwardOnceLemmas

open BadgeProgress

/-- When the badge's condition key is not `currency_accumulated`, the credit
hook's badge `update_progress` matches no badge, so `add_currency` reduces
to the balance credit, the ghost `balPaid` bump and the counter upsert. -/
theorem add_currency_hooked_keymismatch (f : Nat) (b : Badge) (amount now : Int)
    (s : EngineState) (hk : b.condition_key ≠ "currency_accumulated") :
    add_currency_hooked f b amount now s =
      increment_counter amount
        { s with
          user := { s.user with balance := s.user.balance + amount }
          balPaid := s.balPaid + 1 } := by
  unfold add_currency_hooked
  cases f with
  | zero => rfl
  | succ f => exact update_progress_f_keymismatch f b _ amount now _ hk

/-- The step `s1` of the first-time reward block (XP payment): grant and
`balPaid` untouched, `xpPaid` grows by at most one. -/
theorem pay_xp_step (b : Badge) (s0 : EngineState) :
    ((if b.reward_xp > 0 then apply_award_xp b.reward_xp s0 else s0) : EngineState).grant
        = s0.grant ∧
    ((if b.reward_xp > 0 then apply_award_xp b.reward_xp s0 else s0) : EngineState).xpPaid
        ≤ s0.xpPaid + 1 ∧
    ((if b.reward_xp > 0 then apply_award_xp b.reward_xp s0 else s0) : EngineState).balPaid
        = s0.balPaid := by
  split <;> simp [apply_award_xp]

/-- The step `s2` of the first-time reward block (balance payment) under the
no-self-feeding proviso: grant and `xpPaid` untouched, `balPaid` grows by
at most one. -/
theorem pay_balance_step (b : Badge) (now : Int) (s1 : EngineState)
    (hprov : b.condition_key ≠ "currency_accumulated" ∨ b.reward_balance ≤ 0) :
    ((if b.reward_balance > 0 then add_currency_hooked 8 b b.reward_balance now s1 else s1)
        : EngineState).grant = s1.grant ∧
    ((if b.reward_balance > 0 then add_currency_hooked 8 b b.reward_balance now s1 else s1)
        : EngineState).xpPaid = s1.xpPaid ∧
    ((if b.reward_balance > 0 then add_currency_hooked 8 b b.reward_balance now s1 else s1)
        : EngineState).balPaid ≤ s1.balPaid + 1 := by
  by_cases hb : b.reward_balance > 0
  · have hk : b.condition_key ≠ "currency_accumulated" := by
      rcases hprov with hk | hble
      · exact hk
      · omega
    rw [if_pos hb, add_currency_hooked_keymismatch 8 b _ now s1 hk]
    have hf := increment_counter_fields b.reward_balance
      { s1 with
        user := { s1.user with balance := s1.user.balance + b.reward_balance }
        balPaid := s1.balPaid + 1 }
    refine ⟨?_, ?_, ?_⟩
    · rw [hf.2.1]
    · rw [hf.2.2.1]
    · rw [hf.2.2.2]
  · simp [if_neg hb]

/-- First `extend_or_award_badge` call for a pair with no grant row, for a
badge whose reward cannot feed its own condition (key not
`currency_accumulated`, or no balance reward): a grant row appears and each
ghost payment count grows by at most one. -/
theorem extend_no_grant (b : Badge) (now : Int) (s : EngineState)
    (hprov : b.condition_key ≠ "currency_accumulated" ∨ b.reward_balance ≤ 0)
    (hg : s.grant = none) :
    ((extend_or_award_badge b now s).1.grant).isSome = true ∧
    (extend_or_award_badge b now s).1.xpPaid ≤ s.xpPaid + 1 ∧
    (extend_or_award_badge b now s).1.balPaid ≤ s.balPaid + 1 := by
  unfold extend_or_award_badge award_badge
  simp only [hg]
  show ((award_badge_f (8 + 1) b _ true now s).1.grant).isSome = true ∧
    (award_badge_f (8 + 1) b _ true now s).1.xpPaid ≤ s.xpPaid + 1 ∧
    (award_badge_f (8 + 1) b _ true now s).1.balPaid ≤ s.balPaid + 1
  unfold award_badge_f
  simp only [hg]
  simp only [if_true]
  obtain ⟨h1g, h1x, h1b⟩ := pay_xp_step b s
  obtain ⟨h2g, h2x, h2b⟩ :=
    pay_balance_step b now (if b.reward_xp > 0 then apply_award_xp b.reward_xp s else s) hprov
  rw [hg] at h1g
  rw [h1g] at h2g
  rw [h2g]
  refine ⟨rfl, ?_, ?_⟩ <;> dsimp only <;> omega

/-- An `extend_or_award_badge` call for a pair that already has a grant row
pays nothing, whatever the row's state: an active row is extended or
returned, an expired row is replaced via `award_badge` with
`is_first_time=False`. -/
theorem extend_with_grant (b : Badge) (now : Int) (s : EngineState) (g : UserBadge)
    (hg : s.grant = some g) :
    ((extend_or_award_badge b now s).1.grant).isSome = true ∧
    (extend_or_award_badge b now s).1.xpPaid = s.xpPaid ∧
    (extend_or_award_badge b now s).1.balPaid = s.balPaid := by
  unfold extend_or_award_badge award_badge
  simp only [hg]
  by_cases hact : grantActive g now = true
  · rw [if_pos hact]
    cases he : g.expires_at with
    | some t =>
      simp only [he]
      by_cases htmp : b.badge_type = .temporary
      · rw [if_pos htmp]
        simp [hg]
      · rw [if_neg htmp]
        simp [hg]
    | none =>
      simp only [he]
      simp [hg]
  · rw [if_neg hact]
    show ((award_badge_f (8 + 1) b _ false now s).1.grant).isSome = true ∧
      (award_badge_f (8 + 1) b _ false now s).1.xpPaid = s.xpPaid ∧
      (award_badge_f (8 + 1) b _ false now s).1.balPaid = s.balPaid
    unfold award_badge_f
    simp only [hg]
    rw [if_neg hact]
    simp

end AwardOnceLemmas

section ClaimAwardOnce

open BadgeProgress

/-- Counterexample to C2 as stated: a single `extend_or_award_badge` call
can pay the badge's balance reward *twice*.  Configuration: the badge's own
condition key is `currency_accumulated`, its balance reward (50) crosses
its target (50) from the user's current progress (0).  The first-time
award pays 50; the `add_currency` post-commit hook feeds badge
`update_progress`, which completes the progress record, sees no
`UserBadge` row yet (the outer award has not inserted it), and re-awards
the badge with `is_first_time=True` — paying another 50 before the outer
insert then hits the unique constraint.  The ghost `balPaid` count ends at
2 for the one-call sequence `[1000]`. -/
theorem C2_counterexample :
    (BadgeProgress.runExtends
      { badge_type := .permanent, condition_key := "currency_accumulated",
        target_value := some 50, reward_xp := 0, reward_balance := 50, auto_check := false }
      [1000]
      { user := { xp := 0, level := 1, balance := 0 }, grant := none,
        prog := some { progress := 0, completed_at := none }, counter := 0,
        xpPaid := 0, balPaid := 0, nextRowId := 0 }).balPaid = 2 := by
  rfl

/-- Claim C2, amended: for any sequence of `extend_or_award_badge` calls for
one `(user, badge)` pair, the badge's reward is credited at most once —
*provided* the badge's reward cannot feed the badge's own progress
condition (its `condition_key` is not `currency_accumulated`, or it has no
balance reward).  Without that proviso a single first-time call can pay
twice through the credit hook's reentrant award (see the
counterexample). -/
theorem C2_reward_at_most_once (b : Badge) (nows : List Int) (s : EngineState)
    (hprov : b.condition_key ≠ "currency_accumulated" ∨ b.reward_balance ≤ 0)
    (hx : s.xpPaid = 0) (hb : s.balPaid = 0) :
    (BadgeProgress.runExtends b nows s).xpPaid ≤ 1 ∧
    (BadgeProgress.runExtends b nows s).balPaid ≤ 1 := by
  suffices h : ∀ (s : EngineState),
      (s.grant = none → s.xpPaid = 0 ∧ s.balPaid = 0) →
      s.xpPaid ≤ 1 → s.balPaid ≤ 1 →
      (runExtends b nows s).xpPaid ≤ 1 ∧ (runExtends b nows s).balPaid ≤ 1 by
    exact h s (fun _ => ⟨hx, hb⟩) (by omega) (by omega)
  induction nows with
  | nil =>
    intro s hinv h1 h2
    exact ⟨h1, h2⟩
  | cons t ts ih =>
    intro s hinv h1 h2
    show (runExtends b ts ((extend_or_award_badge b t s).1)).xpPaid ≤ 1 ∧
      (runExtends b ts ((extend_or_award_badge b t s).1)).balPaid ≤ 1
    cases hg : s.grant with
    | none =>
      obtain ⟨hx0, hb0⟩ := hinv hg
      obtain ⟨sg, sx, sb⟩ := extend_no_grant b t s hprov hg
      apply ih
      · intro hgn
        rw [hgn] at sg
        cases sg
      · omega
      · omega
    | some g =>
      obtain ⟨sg, sx, sb⟩ := extend_with_grant b t s g hg
      apply ih
      · intro hgn
        rw [hgn] at sg
        cases sg
      · omega
      · omega

/-- Witness for C2: a permanent `xp_leader` badge awarded twice in a row
pays at most once. -/
theorem C2_reward_at_most_once_witness :
    (BadgeProgress.runExtends
      { badge_type := .permanent, condition_key := "xp_leader", target_value := none,
        reward_xp := 10, reward_balance := 10, auto_check := true }
      [0, 1]
      { user := { xp := 0, level := 1, balance := 0 }, grant := none, prog := none,
        counter := 0, xpPaid := 0, balPaid := 0, nextRowId := 0 }).xpPaid ≤ 1 ∧
    (BadgeProgress.runExtends
      { badge_type := .permanent, condition_key := "xp_leader", target_value := none,
        reward_xp := 10, reward_balance := 10, auto_check := true }
      [0, 1]
      { user := { xp := 0, level := 1, balance := 0 }, grant := none, prog := none,
        counter := 0, xpPaid := 0, balPaid := 0, nextRowId := 0 }).balPaid ≤ 1 :=
  C2_reward_at_most_once
    { badge_type := .permanent, condition_key := "xp_leader", target_value := none,
      reward_xp := 10, reward_balance := 10, auto_check := true }
    [0, 1]
    { user := { xp := 0, level := 1, balance := 0 }, grant := none, prog := none,
      counter := 0, xpPaid := 0, balPaid := 0, nextRowId := 0 }
    (Or.inl (by decide)) rfl rfl

end ClaimAwardOnce
